import Mathlib

set_option maxHeartbeats 1000000

/-!
Shallow embedding of `src/zephyr/handlers.py`, a Django logging module with
two error-log handlers: `AdminHumbugHandler` (sends log records to an
internal message bus) and `HumbugAdminEmailHandler` (mails log records to
site admins), plus the shared pure formatter `format_record` and the subject
truncation helper `format_subject`.

Modelling conventions:
- Python exceptions are values of `PyExc` (the exception's description).
  Every exception raised by the code modelled here derives from Python's
  `Exception`, so both `except Exception:` and a bare `except:` catch all
  of them; a fallible computation is `Except PyExc α`.
- Attribute accesses on the log record and on the request object may raise
  (`AttributeError` on a missing attribute, and `record.getMessage()` may
  raise, e.g. a `TypeError` from a message/args mismatch), so they are
  modelled as `Except PyExc` fields.
- External collaborators (`platform.node`, `traceback.format_exception`,
  `internal_send_message`, the exception-reporter filter, the HTML traceback
  renderer, `MAX_SUBJECT_LENGTH` from `zephyr.models`) live in an `Env`
  record; fallible ones return `Except PyExc`.
- Side effects (the bus send, `logging.warning`, `mail.mail_admins`) are
  collected into a `List Effect` returned next to the `Except` outcome of
  `emit`; `Except.error e` as the outcome means the Python call raised `e`
  to its caller.
-/

/-- A Python exception, identified by its description. All exceptions modelled
here derive from `Exception` (so `except Exception:` and `except:` both catch
them). -/
abbrev PyExc := String

/-- The `(type, value, traceback)` triple stored in `record.exc_info`. Its
parts are opaque to the handler code, which only hands the triple to
`traceback.format_exception`. -/
structure ExcInfo where
  excType : String
  excValue : String
  deriving Repr, DecidableEq

/-- The `user.userprofile` object: only `full_name` is read. -/
structure UserProfile where
  full_name : String
  deriving Repr, DecidableEq

/-- The `request.user` object. `userprofile` may raise (e.g. the related
profile row is missing) and `email` is an attribute access. -/
structure User where
  userprofile : Except PyExc UserProfile
  email : Except PyExc String
  deriving Repr

/-- The web framework's request object as read by the handlers. Each
attribute access may raise (the attached object need not be a real request,
e.g. it may lack `.path`). `META` is a string map; `dict.get` on it is
total. `GET` stands for the string rendering of the GET parameter dict, as
produced by `"%s" % (request.GET,)`. -/
structure Request where
  user : Except PyExc User
  path : Except PyExc String
  method : Except PyExc String
  GET : Except PyExc String
  META : List (String × String)
  deriving Repr

/-- A logging `LogRecord` as read by the handlers: `getMessage()` (fallible:
`msg % args` can raise), the optional `exc_info` triple, and the optional
`request` attribute attached by calling code (absent means the attribute
access raises `AttributeError`). -/
structure LogRecord where
  getMessage : Except PyExc String
  exc_info : Option ExcInfo
  request : Except PyExc Request
  deriving Repr

/-- Modelled from the spec: the recipient kinds of `zephyr.models.Recipient`
(that module is not under `src/`). The spec fixes the handler's recipient
kind to "channel"/stream, which is `Recipient.STREAM` at the call site. -/
inductive RecipientKind where
  | STREAM
  | PERSONAL
  | HUDDLE
  deriving Repr, DecidableEq

/-- `zephyr.models.Recipient.STREAM`, the stream/channel recipient kind. -/
def Recipient.STREAM : RecipientKind := RecipientKind.STREAM

/-- Level of a local logging call made by the handler itself. -/
inductive LogLevel where
  | warning
  | error
  deriving Repr, DecidableEq

/-- Observable side effects of an `emit` call. -/
inductive Effect where
  | sendMessage (sender : String) (kind : RecipientKind) (channel : String)
      (subject : String) (body : String)
  | localLog (level : LogLevel) (msg : String) (exc : Option PyExc)
  | mailAdmins (subject : String) (message : String) (failSilently : Bool)
      (htmlMessage : Option String)
  deriving Repr, DecidableEq

/-- External collaborators and configuration, injected into the handlers.
`get_post_parameters` and `get_request_repr` stand for the methods of
`get_exception_reporter_filter(request)` (that helper itself is a total
attribute lookup with a default, so it is not modelled as fallible);
`get_traceback_html` stands for
`ExceptionReporter(request, is_email=True, *exc_info).get_traceback_html()`. -/
structure Env where
  node : String
  format_exception : ExcInfo → List String
  MAX_SUBJECT_LENGTH : Nat
  internal_send_message : String → RecipientKind → String → String → String → Except PyExc Unit
  get_post_parameters : Request → Except PyExc String
  get_request_repr : Request → Except PyExc String
  get_traceback_html : Option Request → ExcInfo → Except PyExc String

/-- The `try:` body of the user-info lookup in `format_record`:
`user = record.request.user; "%s (%s)" % (user.userprofile.full_name, user.email)`. -/
def user_info_attempt (record : LogRecord) : Except PyExc String :=
  match record.request with
  | .error e => .error e
  | .ok req =>
    match req.user with
    | .error e => .error e
    | .ok u =>
      match u.userprofile with
      | .error e => .error e
      | .ok prof =>
        match u.email with
        | .error e => .error e
        | .ok em => .ok (prof.full_name ++ " (" ++ em ++ ")")

/-- The user-info component of `format_record`: the lookup above with
`except Exception:` falling back to the anonymous-user string. -/
def user_info_of (record : LogRecord) : String :=
  match user_info_attempt record with
  | .ok s => s
  | .error _ => "Anonymous user (not logged in)"

/-- The stack-trace component of `format_record`:
`''.join(traceback.format_exception(*record.exc_info))` when `exc_info` is
set, else the literal fallback string. -/
def stack_trace_of (env : Env) (record : LogRecord) : String :=
  match record.exc_info with
  | some ei => String.join (env.format_exception ei)
  | none => "No stack trace available"

/-- `format_record(record)` from `src/zephyr/handlers.py`: returns
`(subject, stack_trace, user_info)`. The subject is
`'%s: %s' % (platform.node(), record.getMessage())`; `record.getMessage()`
is evaluated first and is not inside any `try`, so its exception
propagates. -/
def format_record (env : Env) (record : LogRecord) : Except PyExc (String × String × String) :=
  match record.getMessage with
  | .error e => .error e
  | .ok msg =>
    .ok (env.node ++ ": " ++ msg, stack_trace_of env record, user_info_of record)

/-- Python `str.replace` specialised to a single-character pattern: each
occurrence of `c` in `s` is replaced by `rep`. -/
def replaceChar (s : List Char) (c : Char) (rep : List Char) : List Char :=
  s.flatMap (fun x => if x = c then rep else [x])

/-- `AdminHumbugHandler.format_subject`:
`subject.replace('\n', '\\n').replace('\r', '\\r')[:MAX_SUBJECT_LENGTH]`. -/
def format_subject (maxLen : Nat) (subject : String) : String :=
  String.mk ((replaceChar (replaceChar subject.data '\n' ['\\', 'n']) '\r' ['\\', 'r']).take maxLen)

/-- One `- FIELD: "..."` line of the request summary:
`"- %s: \"%s\"\n" % (field, request.META.get(field, "(None)"))`. -/
def metaLine (request : Request) (field : String) : String :=
  "- " ++ field ++ ": \"" ++
    ((request.META.lookup field).getD "(None)") ++ "\"\n"

/-- The GET/POST branch of the request summary in `AdminHumbugHandler.emit`:
`- GET: ...` when the method is `"GET"`, `- POST: ...` (privacy-filtered via
`filter.get_post_parameters(request)`) when it is `"POST"`, nothing
otherwise. -/
def methodParams (env : Env) (request : Request) : Except PyExc String :=
  match request.method with
  | .error e => .error e
  | .ok m =>
    if m = "GET" then
      match request.GET with
      | .error e => .error e
      | .ok g => .ok ("- GET: " ++ g ++ "\n")
    else if m = "POST" then
      match env.get_post_parameters request with
      | .error e => .error e
      | .ok p => .ok ("- POST: " ++ p ++ "\n")
    else .ok ""

/-- The `try:` body that builds the request summary block in
`AdminHumbugHandler.emit`: path line, GET/POST parameters, then the three
`META` fields `REMOTE_ADDR`, `QUERY_STRING`, `SERVER_NAME`. -/
def try_request_repr (env : Env) (record : LogRecord) : Except PyExc String :=
  match record.request with
  | .error e => .error e
  | .ok request =>
    match request.path with
    | .error e => .error e
    | .ok p =>
      match methodParams env request with
      | .error e => .error e
      | .ok params =>
        .ok ("Request info:\n~~~~\n" ++ "- path: " ++ p ++ "\n" ++ params ++
          metaLine request "REMOTE_ADDR" ++ metaLine request "QUERY_STRING" ++
          metaLine request "SERVER_NAME" ++ "~~~~")

/-- The request summary block with its `except Exception:` fallback
`"Log record message:\n%s" % (record.getMessage(),)`. The fallback itself
calls `record.getMessage()`, so an exception raised there propagates out of
the `except` clause. -/
def request_repr_block (env : Env) (record : LogRecord) : Except PyExc String :=
  match try_request_repr env record with
  | .ok s => .ok s
  | .error _ =>
    match record.getMessage with
    | .error e => .error e
    | .ok msg => .ok ("Log record message:\n" ++ msg)

/-- The `try:` around the send in `AdminHumbugHandler.emit`: call
`internal_send_message("humbug+errors@humbughq.com", Recipient.STREAM,
"devel", subj, body)`; on any exception the bare `except:` clause calls
`logging.warning("Reporting an exception triggered an exception!",
exc_info=True)` instead of re-raising. -/
def send_try (env : Env) (subj body : String) : Except PyExc Unit × List Effect :=
  match env.internal_send_message "humbug+errors@humbughq.com" Recipient.STREAM
      "devel" subj body with
  | .ok _ =>
    (.ok (), [Effect.sendMessage "humbug+errors@humbughq.com" Recipient.STREAM
      "devel" subj body])
  | .error e =>
    (.ok (), [Effect.sendMessage "humbug+errors@humbughq.com" Recipient.STREAM
      "devel" subj body,
      Effect.localLog LogLevel.warning
        "Reporting an exception triggered an exception!" (some e)])

/-- `AdminHumbugHandler.emit(record)`: build the request summary (with
fallback), call `format_record` (not inside any `try`), then try to send via
`internal_send_message` to stream "devel" with the truncated subject and the
composed body. Returns the call's outcome and the effects performed. -/
def AdminHumbugHandler.emit (env : Env) (record : LogRecord) :
    Except PyExc Unit × List Effect :=
  match request_repr_block env record with
  | .error e => (.error e, [])
  | .ok request_repr =>
    match format_record env record with
    | .error e => (.error e, [])
    | .ok (subject, stack_trace, user_info) =>
      send_try env (format_subject env.MAX_SUBJECT_LENGTH subject)
        ("Error generated by " ++ user_info ++ "\n\n~~~~ pytb\n" ++
          stack_trace ++ "\n\n~~~~\n" ++ request_repr)

/-- The `try:` body of the request block in `HumbugAdminEmailHandler.emit`:
`request = record.request; request_repr = filter.get_request_repr(request)`.
On failure the `except Exception:` clause sets `request = None` and builds
the fallback from `record.getMessage()` (which may itself raise). -/
def email_try_request_block (env : Env) (record : LogRecord) :
    Except PyExc (Request × String) :=
  match record.request with
  | .error e => .error e
  | .ok req =>
    match env.get_request_repr req with
    | .error e => .error e
    | .ok rr => .ok (req, rr)

/-- The request block of `HumbugAdminEmailHandler.emit` with its
`except Exception:` fallback (which sets `request = None` and calls
`record.getMessage()`, itself a possible raise). -/
def email_request_block (env : Env) (record : LogRecord) :
    Except PyExc (Option Request × String) :=
  match email_try_request_block env record with
  | .ok (req, rr) => .ok (some req, rr)
  | .error _ =>
    match record.getMessage with
    | .error e => .error e
    | .ok msg => .ok (none, "Log record message:\n" ++ msg)

/-- The `try:` body around the HTML traceback in
`HumbugAdminEmailHandler.emit`:
`reporter = ExceptionReporter(request, is_email=True, *record.exc_info)`
(unpacking `*record.exc_info` raises a `TypeError` when `exc_info` is
`None`), then `self.include_html and reporter.get_traceback_html() or None`
(Python and/or: `False` and the empty string both collapse to `None`, and
`get_traceback_html()` is only evaluated when `include_html` is truthy). -/
def html_attempt (env : Env) (request : Option Request) (include_html : Bool)
    (record : LogRecord) : Except PyExc (Option String) :=
  match record.exc_info with
  | none => .error "TypeError: argument of type NoneType is not iterable"
  | some ei =>
    if include_html then
      match env.get_traceback_html request ei with
      | .error e => .error e
      | .ok h => if h = "" then .ok none else .ok (some h)
    else .ok none

/-- `html_message` in `HumbugAdminEmailHandler.emit`: the attempt above with
`except Exception:` falling back to `None`. Total: no exception escapes this
step. -/
def html_message_of (env : Env) (request : Option Request) (include_html : Bool)
    (record : LogRecord) : Option String :=
  match html_attempt env request include_html record with
  | .ok v => v
  | .error _ => none

/-- `HumbugAdminEmailHandler.emit(record)`: request block (with fallback),
`format_record` (not inside any `try`), plaintext body
`"Error generated by %s\n\n%s\n\n%s"`, optional HTML traceback, then
`mail.mail_admins(self.format_subject(subject), message, fail_silently=True,
html_message=html_message)`. `include_html` is the handler's configuration
attribute inherited from `AdminEmailHandler`. -/
def HumbugAdminEmailHandler.emit (env : Env) (include_html : Bool)
    (record : LogRecord) : Except PyExc Unit × List Effect :=
  match email_request_block env record with
  | .error e => (.error e, [])
  | .ok (request, request_repr) =>
    match format_record env record with
    | .error e => (.error e, [])
    | .ok (subject, stack_trace, user_info) =>
      let message := "Error generated by " ++ user_info ++ "\n\n" ++
        stack_trace ++ "\n\n" ++ request_repr
      let html := html_message_of env request include_html record
      (.ok (), [Effect.mailAdmins (format_subject env.MAX_SUBJECT_LENGTH subject)
        message true html])

/-- True exactly for `Effect.localLog` effects (local logging calls made by
the handler itself). -/
def Effect.isLocalLog : Effect → Bool
  | .localLog _ _ _ => true
  | _ => false

/-! Concrete fixtures used to evaluate the definitions on specific inputs. -/

/-- A benign environment: every collaborator succeeds. -/
def env0 : Env where
  node := "host1"
  format_exception := fun ei =>
    ["Traceback (most recent call last):\n", ei.excType ++ ": " ++ ei.excValue ++ "\n"]
  MAX_SUBJECT_LENGTH := 60
  internal_send_message := fun _ _ _ _ _ => .ok ()
  get_post_parameters := fun _ => .ok "<QueryDict: filtered>"
  get_request_repr := fun _ => .ok "<WSGIRequest GET /foo>"
  get_traceback_html := fun _ _ => .ok "<html>trace</html>"

/-- `env0` with a message-bus send that raises. -/
def envSendFail : Env :=
  { env0 with internal_send_message :=
      (fun _ _ _ _ _ => .error "socket.error: connection refused") }

/-- `env0` with an HTML traceback renderer that raises. -/
def envHtmlFail : Env :=
  { env0 with get_traceback_html := fun _ _ => .error "UnicodeDecodeError" }

/-- `env0` with an HTML traceback renderer that returns the empty string. -/
def envHtmlEmpty : Env :=
  { env0 with get_traceback_html := fun _ _ => .ok "" }

/-- Alice, an authenticated user with a profile. -/
def userAlice : User where
  userprofile := .ok { full_name := "Alice" }
  email := .ok "alice@x.com"

/-- A GET request whose `.user` attribute raises (anonymous). -/
def reqGet : Request where
  user := .error "AttributeError: user"
  path := .ok "/foo"
  method := .ok "GET"
  GET := .ok "<QueryDict: x=1>"
  META := [("REMOTE_ADDR", "127.0.0.1"), ("QUERY_STRING", "x=1")]

/-- `reqGet` carrying Alice as authenticated user. -/
def reqAlice : Request := { reqGet with user := .ok userAlice }

/-- `reqGet` without a `.path` attribute (failure-injection fixture). -/
def reqNoPath : Request := { reqGet with path := .error "AttributeError: path" }

/-- A well-formed record: message formats fine, no exception info, GET
request attached. -/
def recGood : LogRecord where
  getMessage := .ok "DB error"
  exc_info := none
  request := .ok reqGet

/-- `recGood` with Alice's request attached. -/
def recAlice : LogRecord := { recGood with request := .ok reqAlice }

/-- `recGood` with the pathless request attached. -/
def recNoPath : LogRecord := { recGood with request := .ok reqNoPath }

/-- A record whose `getMessage()` raises (format/args mismatch) while its
request is fine. -/
def recBadMessage : LogRecord :=
  { recGood with getMessage := .error "TypeError: not enough arguments for format string" }

/-- A record whose `getMessage()` raises and whose `.request` attribute is
missing as well. -/
def recDoubleFail : LogRecord :=
  { recBadMessage with request := .error "AttributeError: request" }

/-- An exception-info triple fixture. -/
def excInfo0 : ExcInfo where
  excType := "ValueError"
  excValue := "boom"

/-- A record carrying exception info and no request. -/
def recExc : LogRecord where
  getMessage := .ok "caught error"
  exc_info := some excInfo0
  request := .error "AttributeError: request"

lemma mem_replaceChar {x : Char} {s : List Char} {c : Char} {rep : List Char}
    (h : x ∈ replaceChar s c rep) : x ∈ rep ∨ (x ∈ s ∧ x ≠ c) := by
  unfold replaceChar at h
  rcases List.mem_flatMap.mp h with ⟨a, ha, hx⟩
  by_cases hac : a = c
  · left
    simpa [hac] using hx
  · right
    simp only [hac, if_false, List.mem_singleton] at hx
    exact ⟨hx ▸ ha, hx ▸ hac⟩

lemma replaceChar_eq_of_not_mem {s : List Char} {c : Char} {rep : List Char}
    (h : c ∉ s) : replaceChar s c rep = s := by
  induction s with
  | nil => rfl
  | cons a t ih =>
    have hac : a ≠ c := fun hc => h (hc ▸ List.mem_cons_self a t)
    have ht : c ∉ t := fun hc => h (List.mem_cons_of_mem a hc)
    simp [replaceChar, List.flatMap_cons, hac] at *
    exact ih ht

lemma newline_not_mem_format_subject (maxLen : Nat) (s : String) :
    '\n' ∉ (format_subject maxLen s).data := by
  intro h
  have h2 : '\n' ∈ replaceChar (replaceChar s.data '\n' ['\\', 'n']) '\r' ['\\', 'r'] :=
    List.take_subset _ _ h
  rcases mem_replaceChar h2 with h3 | ⟨h3, -⟩
  · simp at h3
  · rcases mem_replaceChar h3 with h4 | ⟨-, h4⟩
    · simp at h4
    · exact h4 rfl

lemma cr_not_mem_format_subject (maxLen : Nat) (s : String) :
    '\r' ∉ (format_subject maxLen s).data := by
  intro h
  have h2 : '\r' ∈ replaceChar (replaceChar s.data '\n' ['\\', 'n']) '\r' ['\\', 'r'] :=
    List.take_subset _ _ h
  rcases mem_replaceChar h2 with h3 | ⟨-, h3⟩
  · simp at h3
  · exact h3 rfl

lemma format_subject_length_le (maxLen : Nat) (s : String) :
    (format_subject maxLen s).length ≤ maxLen := by
  show ((replaceChar (replaceChar s.data '\n' ['\\', 'n']) '\r' ['\\', 'r']).take maxLen).length ≤ maxLen
  simp [List.length_take]

/-- Claim C4: `format_subject` first replaces each newline character with the
two-character sequence backslash-n and each carriage return with backslash-r
(so neither raw character survives in the output), then truncates, and the
result's length never exceeds the configured `MAX_SUBJECT_LENGTH`
(universally quantified here as `maxLen`). -/
theorem format_subject_escapes_then_truncates (maxLen : Nat) (s : String) :
    (format_subject maxLen s).data
        = (replaceChar (replaceChar s.data '\n' ['\\', 'n']) '\r' ['\\', 'r']).take maxLen
      ∧ (format_subject maxLen s).length ≤ maxLen
      ∧ '\n' ∉ (format_subject maxLen s).data
      ∧ '\r' ∉ (format_subject maxLen s).data :=
  ⟨rfl, format_subject_length_le maxLen s,
    newline_not_mem_format_subject maxLen s, cr_not_mem_format_subject maxLen s⟩

/-- Claim C9: `format_subject` is idempotent — the first application removes
every newline and carriage-return character and brings the length within the
maximum, so the second application changes nothing. -/
theorem format_subject_idempotent (maxLen : Nat) (s : String) :
    format_subject maxLen (format_subject maxLen s) = format_subject maxLen s := by
  have hnl := newline_not_mem_format_subject maxLen s
  have hcr := cr_not_mem_format_subject maxLen s
  have hlen : (format_subject maxLen s).data.length ≤ maxLen := format_subject_length_le maxLen s
  apply String.ext
  show (replaceChar (replaceChar (format_subject maxLen s).data '\n' ['\\', 'n']) '\r' ['\\', 'r']).take maxLen
      = (format_subject maxLen s).data
  rw [replaceChar_eq_of_not_mem hnl, replaceChar_eq_of_not_mem hcr]
  exact List.take_of_length_le hlen

/-! Helper lemmas shared by the claim theorems. -/

lemma format_record_ok (env : Env) (record : LogRecord) (msg : String)
    (hm : record.getMessage = Except.ok msg) :
    format_record env record
      = Except.ok (env.node ++ ": " ++ msg, stack_trace_of env record,
          user_info_of record) := by
  unfold format_record
  rw [hm]

lemma request_repr_block_ok_of_getMessage_ok (env : Env) (record : LogRecord)
    (msg : String) (hm : record.getMessage = Except.ok msg) :
    ∃ s, request_repr_block env record = Except.ok s := by
  unfold request_repr_block
  cases htry : try_request_repr env record with
  | ok s => exact ⟨s, rfl⟩
  | error e => exact ⟨"Log record message:\n" ++ msg, by rw [hm]⟩

lemma send_try_fst (env : Env) (subj body : String) :
    (send_try env subj body).1 = Except.ok () := by
  unfold send_try
  cases env.internal_send_message "humbug+errors@humbughq.com" Recipient.STREAM
    "devel" subj body <;> rfl

lemma send_try_head (env : Env) (subj body : String) :
    (send_try env subj body).2.head?
      = some (Effect.sendMessage "humbug+errors@humbughq.com" Recipient.STREAM
          "devel" subj body) := by
  unfold send_try
  cases env.internal_send_message "humbug+errors@humbughq.com" Recipient.STREAM
    "devel" subj body <;> rfl

lemma emit_reduces (env : Env) (record : LogRecord) (msg rr : String)
    (hm : record.getMessage = Except.ok msg)
    (hrr : request_repr_block env record = Except.ok rr) :
    AdminHumbugHandler.emit env record
      = send_try env (format_subject env.MAX_SUBJECT_LENGTH (env.node ++ ": " ++ msg))
          ("Error generated by " ++ user_info_of record ++ "\n\n~~~~ pytb\n" ++
            stack_trace_of env record ++ "\n\n~~~~\n" ++ rr) := by
  unfold AdminHumbugHandler.emit
  rw [hrr, format_record_ok env record msg hm]

/-! Claim theorems. -/

/-- Claim C1 (amended): `AdminHumbugHandler.emit` handles every failure in
building the request summary and in delivering the message, and never raises
provided formatting the record succeeds, i.e. provided `record.getMessage()`
returns normally. (The claim as stated is refuted by
`humbug_emit_raises_on_bad_getMessage`: the `format_record` call sits
outside every `try`, so a `getMessage()` failure propagates.) -/
theorem humbug_emit_never_raises_of_getMessage_ok (env : Env) (record : LogRecord)
    (msg : String) (hm : record.getMessage = Except.ok msg) :
    (AdminHumbugHandler.emit env record).1 = Except.ok () := by
  obtain ⟨rr, hrr⟩ := request_repr_block_ok_of_getMessage_ok env record msg hm
  rw [emit_reduces env record msg rr hm hrr]
  exact send_try_fst env _ _

/-- Claim C1 counterexample: for a record whose `getMessage()` raises (a
format/args mismatch) while the attached request is well-formed,
`AdminHumbugHandler.emit` raises that exception to its caller: the
`format_record` call is outside every `try` block in `emit`. -/
theorem humbug_emit_raises_on_bad_getMessage :
    (AdminHumbugHandler.emit env0 recBadMessage).1
      = Except.error "TypeError: not enough arguments for format string" := rfl

/-- Witness for the amended claim C1, at a concrete benign record. -/
theorem humbug_emit_never_raises_witness :
    (AdminHumbugHandler.emit env0 recGood).1 = Except.ok () :=
  humbug_emit_never_raises_of_getMessage_ok env0 recGood "DB error" rfl

/-- Claim C2: when `format_record` returns, its stack-trace component is the
concatenation of the formatted exception frames when the record carries
`exc_info`, and the literal "No stack trace available" otherwise. -/
theorem format_record_stack_trace (env : Env) (record : LogRecord)
    (s st ui : String) (h : format_record env record = Except.ok (s, st, ui)) :
    (∀ ei, record.exc_info = some ei → st = String.join (env.format_exception ei)) ∧
      (record.exc_info = none → st = "No stack trace available") := by
  unfold format_record at h
  cases hm : record.getMessage with
  | error e => rw [hm] at h; exact absurd h (by simp)
  | ok msg =>
    rw [hm] at h
    simp only [Except.ok.injEq, Prod.mk.injEq] at h
    obtain ⟨-, hst, -⟩ := h
    constructor
    · intro ei hei
      rw [← hst]
      simp [stack_trace_of, hei]
    · intro hnone
      rw [← hst]
      simp [stack_trace_of, hnone]

/-- Witness for claim C2: a record with exception info, where the component
evaluates to the joined frames. -/
theorem format_record_stack_trace_witness :
    "Traceback (most recent call last):\nValueError: boom\n"
      = String.join (env0.format_exception excInfo0) :=
  (format_record_stack_trace env0 recExc "host1: caught error"
      "Traceback (most recent call last):\nValueError: boom\n"
      "Anonymous user (not logged in)" rfl).1 excInfo0 rfl

/-- Claim C3: `format_record` returns normally whenever `getMessage()` does
(no exception from the user lookup escapes), its user-info component is
"<full name> (<email>)" when the request carries an authenticated user with
a profile, and it is "Anonymous user (not logged in)" whenever the lookup
raises, whatever the exception. -/
theorem format_record_user_info (env : Env) (record : LogRecord) (msg : String)
    (hm : record.getMessage = Except.ok msg) :
    format_record env record
        = Except.ok (env.node ++ ": " ++ msg, stack_trace_of env record,
            user_info_of record) ∧
      (∀ req u prof em, record.request = Except.ok req → req.user = Except.ok u →
        u.userprofile = Except.ok prof → u.email = Except.ok em →
        user_info_of record = prof.full_name ++ " (" ++ em ++ ")") ∧
      (∀ e, user_info_attempt record = Except.error e →
        user_info_of record = "Anonymous user (not logged in)") := by
  refine ⟨format_record_ok env record msg hm, ?_, ?_⟩
  · intro req u prof em hreq hu hprof hem
    simp [user_info_of, user_info_attempt, hreq, hu, hprof, hem]
  · intro e he
    simp [user_info_of, he]

/-- Witness for claim C3: Alice with profile name "Alice" and email
"alice@x.com" renders as "Alice (alice@x.com)". -/
theorem format_record_user_info_witness :
    user_info_of recAlice = "Alice" ++ " (" ++ "alice@x.com" ++ ")" :=
  (format_record_user_info env0 recAlice "DB error" rfl).2.1 reqAlice userAlice
    { full_name := "Alice" } "alice@x.com" rfl rfl rfl rfl

/-- Claim C5 counterexample: when building the request summary fails (missing
`.request`) and `record.getMessage()` also raises, the `except Exception:`
clause itself raises while building the fallback string, so an exception does
propagate out of `emit` and the block is not the fallback message. -/
theorem humbug_request_block_double_failure_raises :
    try_request_repr env0 recDoubleFail = Except.error "AttributeError: request" ∧
      (AdminHumbugHandler.emit env0 recDoubleFail).1
        = Except.error "TypeError: not enough arguments for format string" :=
  ⟨rfl, rfl⟩

/-- Claim C5 (amended): provided `record.getMessage()` succeeds, the request
summary block contains the path line, then the GET parameters for a GET
request or the privacy-filtered POST parameters for a POST request, then the
three `META` fields (each rendering "(None)" when absent); and if any
exception is raised while building the block, the block is
"Log record message:\n<message>" instead and `emit` does not raise. (The
unconditional claim fails when `getMessage()` itself raises inside the
fallback, see `humbug_request_block_double_failure_raises`.) -/
theorem humbug_request_repr_spec (env : Env) (record : LogRecord) (msg : String)
    (hm : record.getMessage = Except.ok msg) :
    (∀ e, try_request_repr env record = Except.error e →
        request_repr_block env record = Except.ok ("Log record message:\n" ++ msg) ∧
          (AdminHumbugHandler.emit env record).1 = Except.ok ()) ∧
      (∀ req p g, record.request = Except.ok req → req.path = Except.ok p →
        req.method = Except.ok "GET" → req.GET = Except.ok g →
        request_repr_block env record
          = Except.ok ("Request info:\n~~~~\n" ++ "- path: " ++ p ++ "\n" ++
              ("- GET: " ++ g ++ "\n") ++
              metaLine req "REMOTE_ADDR" ++ metaLine req "QUERY_STRING" ++
              metaLine req "SERVER_NAME" ++ "~~~~")) ∧
      (∀ req p ps, record.request = Except.ok req → req.path = Except.ok p →
        req.method = Except.ok "POST" → env.get_post_parameters req = Except.ok ps →
        request_repr_block env record
          = Except.ok ("Request info:\n~~~~\n" ++ "- path: " ++ p ++ "\n" ++
              ("- POST: " ++ ps ++ "\n") ++
              metaLine req "REMOTE_ADDR" ++ metaLine req "QUERY_STRING" ++
              metaLine req "SERVER_NAME" ++ "~~~~")) ∧
      (∀ req field, req.META.lookup field = none →
        metaLine req field = "- " ++ field ++ ": \"" ++ "(None)" ++ "\"\n") ∧
      (∀ req field v, req.META.lookup field = some v →
        metaLine req field = "- " ++ field ++ ": \"" ++ v ++ "\"\n") := by
  refine ⟨?_, ?_, ?_, ?_, ?_⟩
  · intro e he
    have hb : request_repr_block env record
        = Except.ok ("Log record message:\n" ++ msg) := by
      unfold request_repr_block
      rw [he, hm]
    refine ⟨hb, ?_⟩
    rw [emit_reduces env record msg _ hm hb]
    exact send_try_fst env _ _
  · intro req p g hreq hp hmeth hg
    simp [request_repr_block, try_request_repr, methodParams, hreq, hp, hmeth, hg]
  · intro req p ps hreq hp hmeth hps
    simp [request_repr_block, try_request_repr, methodParams, hreq, hp, hmeth, hps]
  · intro req field habs
    simp [metaLine, habs]
  · intro req field v hv
    simp [metaLine, hv]

/-- Witness for the amended claim C5: a request without a `.path` attribute
makes the block fall back to the record message, and `emit` returns
normally. -/
theorem humbug_request_repr_spec_witness :
    request_repr_block env0 recNoPath
        = Except.ok ("Log record message:\n" ++ "DB error") ∧
      (AdminHumbugHandler.emit env0 recNoPath).1 = Except.ok () :=
  (humbug_request_repr_spec env0 recNoPath "DB error" rfl).1 "AttributeError: path" rfl

/-- Claim C6: if the message-bus send raises any exception, emit catches it,
performs exactly one warning-level (not error-level) local log call with the
exception attached, and does not re-raise. -/
theorem humbug_emit_send_failure_warns (env : Env) (record : LogRecord)
    (msg : String) (exc : PyExc)
    (hm : record.getMessage = Except.ok msg)
    (hsend : ∀ sender kind channel subj body,
      env.internal_send_message sender kind channel subj body = Except.error exc) :
    (AdminHumbugHandler.emit env record).1 = Except.ok () ∧
      (AdminHumbugHandler.emit env record).2.filter Effect.isLocalLog
        = [Effect.localLog LogLevel.warning
            "Reporting an exception triggered an exception!" (some exc)] := by
  obtain ⟨rr, hrr⟩ := request_repr_block_ok_of_getMessage_ok env record msg hm
  rw [emit_reduces env record msg rr hm hrr]
  unfold send_try
  rw [hsend]
  exact ⟨rfl, rfl⟩

/-- Witness for claim C6: with a send that raises a socket error, emit
returns normally and logs exactly one warning carrying that exception. -/
theorem humbug_emit_send_failure_warns_witness :
    (AdminHumbugHandler.emit envSendFail recGood).1 = Except.ok () ∧
      (AdminHumbugHandler.emit envSendFail recGood).2.filter Effect.isLocalLog
        = [Effect.localLog LogLevel.warning
            "Reporting an exception triggered an exception!"
            (some "socket.error: connection refused")] :=
  humbug_emit_send_failure_warns envSendFail recGood "DB error"
    "socket.error: connection refused" rfl (fun _ _ _ _ _ => rfl)

/-- Claim C7: the bus handler sends with the fixed bot sender address, the
stream/channel recipient kind, channel "devel", the truncated subject, and
the body "Error generated by <user_info>\n\n~~~~ pytb\n<stack_trace>\n\n~~~~\n<request_repr>". -/
theorem humbug_emit_send_arguments (env : Env) (record : LogRecord) (msg rr : String)
    (hm : record.getMessage = Except.ok msg)
    (hrr : request_repr_block env record = Except.ok rr) :
    (AdminHumbugHandler.emit env record).2.head?
      = some (Effect.sendMessage "humbug+errors@humbughq.com" Recipient.STREAM "devel"
          (format_subject env.MAX_SUBJECT_LENGTH (env.node ++ ": " ++ msg))
          ("Error generated by " ++ user_info_of record ++ "\n\n~~~~ pytb\n" ++
            stack_trace_of env record ++ "\n\n~~~~\n" ++ rr)) := by
  rw [emit_reduces env record msg rr hm hrr]
  exact send_try_head env _ _

/-- Witness for claim C7, at a concrete GET record. -/
theorem humbug_emit_send_arguments_witness :
    (AdminHumbugHandler.emit env0 recGood).2.head?
      = some (Effect.sendMessage "humbug+errors@humbughq.com" Recipient.STREAM "devel"
          (format_subject env0.MAX_SUBJECT_LENGTH (env0.node ++ ": " ++ "DB error"))
          ("Error generated by " ++ user_info_of recGood ++ "\n\n~~~~ pytb\n" ++
            stack_trace_of env0 recGood ++ "\n\n~~~~\n" ++
            "Request info:\n~~~~\n- path: /foo\n- GET: <QueryDict: x=1>\n- REMOTE_ADDR: \"127.0.0.1\"\n- QUERY_STRING: \"x=1\"\n- SERVER_NAME: \"(None)\"\n~~~~")) :=
  humbug_emit_send_arguments env0 recGood "DB error"
    "Request info:\n~~~~\n- path: /foo\n- GET: <QueryDict: x=1>\n- REMOTE_ADDR: \"127.0.0.1\"\n- QUERY_STRING: \"x=1\"\n- SERVER_NAME: \"(None)\"\n~~~~"
    rfl rfl

lemma html_message_none_of_fail (env : Env) (request : Option Request)
    (include_html : Bool) (record : LogRecord) (exc : PyExc)
    (hfail : ∀ r ei, env.get_traceback_html r ei = Except.error exc) :
    html_message_of env request include_html record = none := by
  unfold html_message_of html_attempt
  cases hei : record.exc_info with
  | none => rfl
  | some ei =>
    cases include_html with
    | false => rfl
    | true => simp [hfail]

lemma html_message_none_of_empty (env : Env) (request : Option Request)
    (record : LogRecord) (ei : ExcInfo)
    (hei : record.exc_info = some ei)
    (hempty : ∀ r e, env.get_traceback_html r e = Except.ok "") :
    html_message_of env request true record = none := by
  unfold html_message_of html_attempt
  rw [hei]
  simp [hempty]

lemma email_emit_reduces (env : Env) (include_html : Bool) (record : LogRecord)
    (msg rr : String) (req : Option Request)
    (hm : record.getMessage = Except.ok msg)
    (hrb : email_request_block env record = Except.ok (req, rr)) :
    HumbugAdminEmailHandler.emit env include_html record
      = (Except.ok (),
          [Effect.mailAdmins
            (format_subject env.MAX_SUBJECT_LENGTH (env.node ++ ": " ++ msg))
            ("Error generated by " ++ user_info_of record ++ "\n\n" ++
              stack_trace_of env record ++ "\n\n" ++ rr) true
            (html_message_of env req include_html record)]) := by
  unfold HumbugAdminEmailHandler.emit
  rw [hrb, format_record_ok env record msg hm]

/-- Claim C8: the admin-email handler produces an HTML body only when HTML
inclusion is enabled and the record carries exception info (and only the
renderer's nonempty output); and if building the HTML traceback fails for
any reason, the mail is sent plaintext-only (`html_message = none`) with no
exception propagating from the HTML-building step. -/
theorem email_html_only_when_enabled (env : Env) (record : LogRecord)
    (include_html : Bool) (request req : Option Request) (rr msg : String) (exc : PyExc)
    (hm : record.getMessage = Except.ok msg)
    (hrb : email_request_block env record = Except.ok (req, rr)) :
    (∀ h, html_message_of env request include_html record = some h →
        include_html = true ∧ ∃ ei, record.exc_info = some ei ∧
          env.get_traceback_html request ei = Except.ok h ∧ h ≠ "") ∧
      ((∀ r ei, env.get_traceback_html r ei = Except.error exc) →
        HumbugAdminEmailHandler.emit env include_html record
          = (Except.ok (),
              [Effect.mailAdmins
                (format_subject env.MAX_SUBJECT_LENGTH (env.node ++ ": " ++ msg))
                ("Error generated by " ++ user_info_of record ++ "\n\n" ++
                  stack_trace_of env record ++ "\n\n" ++ rr) true none])) := by
  constructor
  · intro h hsome
    unfold html_message_of html_attempt at hsome
    cases hei : record.exc_info with
    | none => simp [hei] at hsome
    | some ei =>
      cases include_html with
      | false => simp [hei] at hsome
      | true =>
        simp only [hei] at hsome
        cases hh : env.get_traceback_html request ei with
        | error e => simp [hh] at hsome
        | ok h0 =>
          simp only [hh] at hsome
          by_cases h0e : h0 = ""
          · simp [h0e] at hsome
          · have hs : some h0 = some h := by simpa [h0e] using hsome
            have h0h : h0 = h := by injection hs
            subst h0h
            exact ⟨rfl, ei, rfl, hh, h0e⟩
  · intro hfail
    rw [email_emit_reduces env include_html record msg rr req hm hrb,
      html_message_none_of_fail env req include_html record exc hfail]

/-- Witness for claim C8: with a renderer that raises, the mail goes out
plaintext-only and the handler returns normally. -/
theorem email_html_only_when_enabled_witness :
    HumbugAdminEmailHandler.emit envHtmlFail true recExc
      = (Except.ok (),
          [Effect.mailAdmins
            (format_subject envHtmlFail.MAX_SUBJECT_LENGTH
              (envHtmlFail.node ++ ": " ++ "caught error"))
            ("Error generated by " ++ user_info_of recExc ++ "\n\n" ++
              stack_trace_of envHtmlFail recExc ++ "\n\n" ++
              ("Log record message:\n" ++ "caught error")) true none]) :=
  (email_html_only_when_enabled envHtmlFail recExc true none none
      ("Log record message:\n" ++ "caught error") "caught error"
      "UnicodeDecodeError" rfl rfl).2 (fun _ _ => rfl)

/-- Claim C10: when the HTML traceback renders to the empty string (a falsy
value), the `and/or` expression collapses it to `None`, so the mail sender
receives `html_message = none`, not the empty string. -/
theorem email_empty_html_yields_none (env : Env) (record : LogRecord)
    (request req : Option Request) (rr msg : String) (ei : ExcInfo)
    (hm : record.getMessage = Except.ok msg)
    (hrb : email_request_block env record = Except.ok (req, rr))
    (hei : record.exc_info = some ei)
    (hempty : ∀ r e, env.get_traceback_html r e = Except.ok "") :
    html_message_of env request true record = none ∧
      HumbugAdminEmailHandler.emit env true record
        = (Except.ok (),
            [Effect.mailAdmins
              (format_subject env.MAX_SUBJECT_LENGTH (env.node ++ ": " ++ msg))
              ("Error generated by " ++ user_info_of record ++ "\n\n" ++
                stack_trace_of env record ++ "\n\n" ++ rr) true none]) := by
  refine ⟨html_message_none_of_empty env request record ei hei hempty, ?_⟩
  rw [email_emit_reduces env true record msg rr req hm hrb,
    html_message_none_of_empty env req record ei hei hempty]

/-- Witness for claim C10: a renderer returning the empty string yields a
mail with no HTML body. -/
theorem email_empty_html_yields_none_witness :
    html_message_of envHtmlEmpty none true recExc = none ∧
      HumbugAdminEmailHandler.emit envHtmlEmpty true recExc
        = (Except.ok (),
            [Effect.mailAdmins
              (format_subject envHtmlEmpty.MAX_SUBJECT_LENGTH
                (envHtmlEmpty.node ++ ": " ++ "caught error"))
              ("Error generated by " ++ user_info_of recExc ++ "\n\n" ++
                stack_trace_of envHtmlEmpty recExc ++ "\n\n" ++
                ("Log record message:\n" ++ "caught error")) true none]) :=
  email_empty_html_yields_none envHtmlEmpty recExc none none
    ("Log record message:\n" ++ "caught error") "caught error" excInfo0 rfl rfl rfl
    (fun _ _ => rfl)
